import Mathlib

/-!
Shallow embedding of `scripts/validate-structure.js` (the GAP directory
structure validator) and of the older variant of the same script, together
with theorems settling the specification claims.

Modelling conventions:
* The filesystem is a value: a `DirFS` records what the script can observe
  about one directory (existence, is-directory, README presence, the
  metadata file and the result of reading it), and a `World` records the
  repository root listing used by discovery plus the `DirFS` of every path.
* External collaborators (the YAML parser, the compiled ajv schema
  validator, `validator.isEmail`, `validator.isURL`) are oracles collected
  in an `Env`; the script only branches on their results.
* `error(gapName, message)` prints one message `gapName ++ ": " ++ message`
  to stderr and exits 1; this fail-fast control flow is modelled by result
  types (`VR`, `DirOutcome`, `ProcResult`) that carry the stderr message,
  aborting the rest of the pipeline.
* A JS property access or iteration that would throw a `TypeError`
  (metadata fields missing or of the wrong runtime shape after a schema
  oracle accepted) is modelled by a distinct `crash` outcome.
-/

/-- A YAML document value as produced by `yaml.parse`, restricted to
string-keyed mappings (the shapes relevant to the script). -/
inductive Yaml where
  | str (s : String)
  | num (n : Int)
  | bool (b : Bool)
  | null
  | seq (items : List Yaml)
  | map (entries : List (String × Yaml))

/-- The JavaScript `typeof` of the JS value a `Yaml` parses to.
Note `typeof null` and `typeof` of an array are both `"object"` in JS. -/
def jsTypeof : Yaml → String
  | .str _ => "string"
  | .num _ => "number"
  | .bool _ => "boolean"
  | .null => "object"
  | .seq _ => "object"
  | .map _ => "object"

/-- Helper for `strStartsWith`: does the second list start with the first? -/
def leadsWith : List Char → List Char → Bool
  | [], _ => true
  | _ :: _, [] => false
  | p :: ps, c :: cs => p == c && leadsWith ps cs

/-- JS `s.startsWith(p)` (also models the anchored regex test `/^p/.test(s)`). -/
def strStartsWith (s p : String) : Bool :=
  leadsWith p.data s.data

/-- Node's `path.basename` for POSIX paths: drop trailing slashes, then take
the component after the last slash; a path of only slashes gives `"/"`,
the empty path gives `""`. -/
def basename (p : String) : String :=
  let r := p.data.reverse.dropWhile (fun c => c = '/')
  if r.isEmpty then (if p.isEmpty then "" else "/")
  else String.mk ((r.takeWhile (fun c => c ≠ '/')).reverse)

/-- The anchored regex test `/^GAP-\d{4}$/.test(·)` on the character list. -/
def gapFourDigits : List Char → Bool
  | [g, a, p, h, d1, d2, d3, d4] =>
    g == 'G' && a == 'A' && p == 'P' && h == '-' &&
      d1.isDigit && d2.isDigit && d3.isDigit && d4.isDigit
  | _ => false

/-- `/^GAP-\d{4}$/.test(s)`. -/
def matchesGapNNNN (s : String) : Bool :=
  gapFourDigits s.data

/-- The stderr message produced by `error(gapName, message)`. -/
def errorLine (gapName message : String) : String :=
  gapName ++ ": " ++ message

/-- `validateDirectoryNaming(dirPath)`: returns the base name, or the
naming-error stderr message. -/
def validateDirectoryNaming (dirPath : String) : Except String String :=
  let dirName := basename dirPath
  if dirName = "GAP-0" then .ok dirName
  else if !matchesGapNNNN dirName then
    .error (errorLine dirName
      "Invalid directory name format. Expected GAP-NNNN (4 digits, zero-padded)")
  else .ok dirName

theorem leadsWith_iff (p : List Char) :
    ∀ s : List Char, leadsWith p s = true ↔ ∃ r, s = p ++ r := by
  induction p with
  | nil =>
    intro s
    simp [leadsWith]
  | cons c cs ih =>
    intro s
    cases s with
    | nil =>
      simp [leadsWith]
    | cons d ds =>
      simp only [leadsWith, Bool.and_eq_true, beq_iff_eq, ih ds,
        List.cons_append, List.cons.injEq]
      constructor
      · rintro ⟨rfl, r, rfl⟩
        exact ⟨r, rfl, rfl⟩
      · rintro ⟨r, rfl, rfl⟩
        exact ⟨rfl, r, rfl⟩

theorem strStartsWith_iff (s p : String) :
    strStartsWith s p = true ↔ ∃ r, s.data = p.data ++ r :=
  leadsWith_iff p.data s.data

theorem string_mk_append (l : List Char) :
    ("GAP-" : String) ++ String.mk l = String.mk ('G' :: 'A' :: 'P' :: '-' :: l) :=
  rfl

theorem matchesGapNNNN_iff (s : String) :
    matchesGapNNNN s = true ↔
      ∃ a b c d : Char, a.isDigit = true ∧ b.isDigit = true ∧
        c.isDigit = true ∧ d.isDigit = true ∧
        s = "GAP-" ++ String.mk [a, b, c, d] := by
  constructor
  · intro h
    obtain ⟨l⟩ := s
    rcases l with _ | ⟨c1, _ | ⟨c2, _ | ⟨c3, _ | ⟨c4, _ | ⟨c5, _ | ⟨c6, _ | ⟨c7, _ | ⟨c8, _ | ⟨c9, l⟩⟩⟩⟩⟩⟩⟩⟩⟩ <;>
      simp [matchesGapNNNN, gapFourDigits] at h
    obtain ⟨⟨⟨⟨⟨⟨⟨rfl, rfl⟩, rfl⟩, rfl⟩, h5⟩, h6⟩, h7⟩, h8⟩ := h
    exact ⟨c5, c6, c7, c8, h5, h6, h7, h8, rfl⟩
  · rintro ⟨a, b, c, d, ha, hb, hc, hd, rfl⟩
    simp [matchesGapNNNN, string_mk_append, gapFourDigits, ha, hb, hc, hd]

/-- Claim C2: for every directory path, the naming check passes iff the
path's base name equals the literal `"GAP-0"` or is the literal `"GAP-"`
followed by exactly four decimal digits; every other base name produces
the naming error message (prefixed with that base name). -/
theorem naming_check_characterization (dirPath : String) :
    (validateDirectoryNaming dirPath = .ok (basename dirPath) ↔
      (basename dirPath = "GAP-0" ∨
        ∃ a b c d : Char, a.isDigit = true ∧ b.isDigit = true ∧
          c.isDigit = true ∧ d.isDigit = true ∧
          basename dirPath = "GAP-" ++ String.mk [a, b, c, d])) ∧
    (¬ (basename dirPath = "GAP-0" ∨
        ∃ a b c d : Char, a.isDigit = true ∧ b.isDigit = true ∧
          c.isDigit = true ∧ d.isDigit = true ∧
          basename dirPath = "GAP-" ++ String.mk [a, b, c, d]) →
      validateDirectoryNaming dirPath = .error (errorLine (basename dirPath)
        "Invalid directory name format. Expected GAP-NNNN (4 digits, zero-padded)")) := by
  by_cases h0 : basename dirPath = "GAP-0"
  · refine ⟨⟨fun _ => Or.inl h0, fun _ => ?_⟩, fun hn => absurd (Or.inl h0) hn⟩
    simp [validateDirectoryNaming, h0]
  · cases hm : matchesGapNNNN (basename dirPath) with
    | true =>
      refine ⟨⟨fun _ => Or.inr ((matchesGapNNNN_iff _).mp hm), fun _ => ?_⟩,
        fun hn => absurd (Or.inr ((matchesGapNNNN_iff _).mp hm)) hn⟩
      simp [validateDirectoryNaming, h0, hm]
    | false =>
      refine ⟨⟨fun h => ?_, fun h => ?_⟩, fun _ => ?_⟩
      · simp [validateDirectoryNaming, h0, hm] at h
      · rcases h with h0' | hd
        · exact absurd h0' h0
        · rw [(matchesGapNNNN_iff _).mpr hd] at hm
          exact absurd hm (by simp)
      · simp [validateDirectoryNaming, h0, hm]

/-- One entry of ajv's `errors` array (the fields the script reads). -/
structure AjvError where
  instancePath : String
  message : String
deriving DecidableEq

/-- The external collaborators the script calls: the YAML parser
(`yaml.parse`, value or thrown message), the compiled ajv schema validator
(`none` means valid, `some errs` means invalid with that error list), and
`validator.isEmail` (with `allow_display_name`) / `validator.isURL`. -/
structure Env where
  parseYaml : String → Except String Yaml
  schemaErrors : Yaml → Option (List AjvError)
  isEmail : String → Bool
  isURL : String → Bool

/-- What the script can observe about one candidate directory path:
`existsSync(dirPath)`, `statSync(dirPath).isDirectory()`,
`existsSync(join(dirPath, "README.md"))`,
`existsSync(join(dirPath, "metadata.yml"))`, and the result of
`readFileSync(join(dirPath, "metadata.yml"), "utf8")`. -/
structure DirFS where
  pathExists : Bool
  isDir : Bool
  readmeExists : Bool
  metadataExists : Bool
  metadataRead : Except String String

/-- One entry of `readdirSync(rootDir, \x7b withFileTypes: true \x7d)`. -/
structure DirEntry where
  name : String
  isDir : Bool
deriving DecidableEq

/-- The filesystem as the script sees it: the repository root path, its
listing in native enumeration order, and the per-path directory state. -/
structure World where
  rootDir : String
  rootEntries : List DirEntry
  dirFS : String → DirFS

/-- Result of a validation stage: success, `error(...)` with the stderr
message (process exits 1), or an uncaught JS `TypeError` (shape mismatch
after the schema oracle accepted). -/
inductive VR where
  | ok
  | fail (stderrLine : String)
  | crash
deriving DecidableEq

/-- Result of `validateGapDirectory`: success with the stdout confirmation
line, `error(...)` with the stderr message, or an uncaught exception. -/
inductive DirOutcome where
  | ok (successLine : String)
  | fail (stderrLine : String)
  | crash
deriving DecidableEq

/-- Result of a whole process run: exit 0 with the stdout lines, exit 1
with the stdout lines so far and the stderr message, or a crash. -/
inductive ProcResult where
  | success (stdoutLines : List String)
  | failure (stdoutLines : List String) (stderrLine : String)
  | crash (stdoutLines : List String)
deriving DecidableEq

/-- JS property read `obj[key]` on the object a `Yaml` mapping denotes
(first binding wins); `none` models `undefined`. -/
def lookupField : List (String × Yaml) → String → Option Yaml
  | [], _ => none
  | (k, v) :: rest, key => if k = key then some v else lookupField rest key

/-- `metadata.key`: property access on the parsed value; non-mapping
values have none of the fields the script reads. -/
def yamlLookup (v : Yaml) (key : String) : Option Yaml :=
  match v with
  | .map kvs => lookupField kvs key
  | _ => none

/-- A field value usable as a JS string (anything else would make the
script's string method calls throw). -/
def asStr : Option Yaml → Option String
  | some (.str s) => some s
  | _ => none

/-- A field value usable as a JS array of strings (anything else would
make the script's `for..of` + `isEmail` calls throw). -/
def asStrList : Option Yaml → Option (List String)
  | some (.seq items) => strSeq items
  | _ => none
where
  strSeq : List Yaml → Option (List String)
    | [] => some []
    | .str s :: rest => (strSeq rest).map (fun l => s :: l)
    | _ => none

/-- The multi-line ajv error report: one line per error, each prefixed by
its `instancePath` (when non-empty, i.e. truthy), joined with newlines. -/
def formatSchemaErrors (errors : List AjvError) : String :=
  String.intercalate "\n"
    (errors.map (fun e =>
      (if e.instancePath = "" then "" else e.instancePath ++ ": ") ++ e.message))

/-- The `for (const author of metadata.authors)` loop: the first entry
rejected by `validator.isEmail`, if any. -/
def firstInvalidAuthor (isEmail : String → Bool) : List String → Option String
  | [] => none
  | a :: rest => if isEmail a then firstInvalidAuthor isEmail rest else some a

/-- The three semantic checks of `validateMetadata` (source lines 98-122),
run in source order: authors loop, sponsor `startsWith("@")`, discussion
`isURL`. Field accesses happen in this order too, so a shape mismatch
crashes exactly where JS would throw. -/
def validateSemantic (env : Env) (gapName : String) (metadata : Yaml) : VR :=
  match asStrList (yamlLookup metadata "authors") with
  | none => .crash
  | some authors =>
    match firstInvalidAuthor env.isEmail authors with
    | some a =>
      .fail (errorLine gapName
        ("metadata.yml invalid author \"" ++ a ++ "\" - must be \"Name <email>\" or a valid email"))
    | none =>
      match asStr (yamlLookup metadata "sponsor") with
      | none => .crash
      | some sponsor =>
        if !strStartsWith sponsor "@" then
          .fail (errorLine gapName
            ("metadata.yml sponsor must be a GitHub username starting with @ (got \"" ++ sponsor ++ "\")"))
        else
          match asStr (yamlLookup metadata "discussion") with
          | none => .crash
          | some discussion =>
            if !env.isURL discussion then
              .fail (errorLine gapName
                ("metadata.yml discussion must be a valid URL (got \"" ++ discussion ++ "\")"))
            else .ok

/-- `validateMetadata(dirPath, gapName)`: metadata.yml presence, read,
YAML parse, `typeof` object check, schema validation, semantic checks. -/
def validateMetadata (env : Env) (fs : DirFS) (gapName : String) : VR :=
  if !fs.metadataExists then
    .fail (errorLine gapName "No metadata.yml file found")
  else
    match fs.metadataRead with
    | .error msg => .fail (errorLine gapName ("Failed to read metadata.yml: " ++ msg))
    | .ok content =>
      match env.parseYaml content with
      | .error msg => .fail (errorLine gapName ("Invalid YAML in metadata.yml: " ++ msg))
      | .ok metadata =>
        if jsTypeof metadata ≠ "object" then
          .fail (errorLine gapName "metadata.yml must contain a valid YAML object")
        else
          match env.schemaErrors metadata with
          | some errs =>
            .fail (errorLine gapName
              ("metadata.yml validation failed:\n\n" ++ formatSchemaErrors errs))
          | none => validateSemantic env gapName metadata

/-- `validateGapDirectory(dirPath)` of the newer script: existence and
is-directory guards (no gap-name in those messages), then naming check,
README existence, metadata validation, then the success line. -/
def validateGapDirectory (env : Env) (dirPath : String) (fs : DirFS) : DirOutcome :=
  if !fs.pathExists then .fail ("Directory does not exist: " ++ dirPath)
  else if !fs.isDir then .fail ("Not a directory: " ++ dirPath)
  else
    match validateDirectoryNaming dirPath with
    | .error line => .fail line
    | .ok gapName =>
      if !fs.readmeExists then .fail (errorLine gapName "No README.md file found")
      else
        match validateMetadata env fs gapName with
        | .fail line => .fail line
        | .crash => .crash
        | .ok => .ok ("✓ " ++ gapName ++ " validated successfully")

/-- Node `path.join` restricted to the shape the script uses. -/
def joinPath (a b : String) : String :=
  a ++ "/" ++ b

/-- `discoverGapDirectories()`: filter the root listing to directories
whose name passes the anchored regex test for the literal leading `GAP-`,
in enumeration order, mapped to paths. -/
def discoverGapDirectories (w : World) : List String :=
  (w.rootEntries.filter (fun e => e.isDir && strStartsWith e.name "GAP-")).map
    (fun e => joinPath w.rootDir e.name)

/-- The discovery-mode loop `for (const dir of gapDirs) validateGapDirectory(dir)`,
accumulating stdout; the first failure aborts the process. -/
def validateAll (env : Env) (w : World) (acc : List String) :
    List String → ProcResult
  | [] => .success acc
  | d :: rest =>
    match validateGapDirectory env d (w.dirFS d) with
    | .ok line => validateAll env w (acc ++ [line]) rest
    | .fail e => .failure acc e
    | .crash => .crash acc

/-- The discovery-mode count summary line. -/
def foundLine (n : Nat) : String :=
  "Found " ++ toString n ++ " GAP director" ++ (if n = 1 then "y" else "ies")

/-- `main()` of the newer script, as a function of the positional
arguments: discovery mode on zero positionals, single-directory mode on
one, usage error otherwise. -/
def runMain (env : Env) (w : World) (positionals : List String) : ProcResult :=
  match positionals with
  | [] =>
    let gapDirs := discoverGapDirectories w
    if gapDirs.length = 0 then .failure [] "No GAP directories found"
    else validateAll env w [foundLine gapDirs.length] gapDirs
  | [dirPath] =>
    match validateGapDirectory env dirPath (w.dirFS dirPath) with
    | .ok line => .success [line]
    | .fail e => .failure [] e
    | .crash => .crash []
  | _ => .failure [] "Usage: ./scripts/validate-structure.js [gap-directory]"

namespace Old

/-- `validateDirectoryNaming` of the older script (identical source text). -/
def validateDirectoryNaming (dirPath : String) : Except String String :=
  let dirName := basename dirPath
  if dirName = "GAP-0" then .ok dirName
  else if !matchesGapNNNN dirName then
    .error (errorLine dirName
      "Invalid directory name format. Expected GAP-NNNN (4 digits, zero-padded)")
  else .ok dirName

/-- The authors loop of the older script (identical source text). -/
def firstInvalidAuthor (isEmail : String → Bool) : List String → Option String
  | [] => none
  | a :: rest => if isEmail a then firstInvalidAuthor isEmail rest else some a

/-- The semantic checks of the older script's `validateMetadata`
(identical source text). -/
def validateSemantic (env : Env) (gapName : String) (metadata : Yaml) : VR :=
  match asStrList (yamlLookup metadata "authors") with
  | none => .crash
  | some authors =>
    match Old.firstInvalidAuthor env.isEmail authors with
    | some a =>
      .fail (errorLine gapName
        ("metadata.yml invalid author \"" ++ a ++ "\" - must be \"Name <email>\" or a valid email"))
    | none =>
      match asStr (yamlLookup metadata "sponsor") with
      | none => .crash
      | some sponsor =>
        if !strStartsWith sponsor "@" then
          .fail (errorLine gapName
            ("metadata.yml sponsor must be a GitHub username starting with @ (got \"" ++ sponsor ++ "\")"))
        else
          match asStr (yamlLookup metadata "discussion") with
          | none => .crash
          | some discussion =>
            if !env.isURL discussion then
              .fail (errorLine gapName
                ("metadata.yml discussion must be a valid URL (got \"" ++ discussion ++ "\")"))
            else .ok

/-- `validateMetadata` of the older script (identical source text). -/
def validateMetadata (env : Env) (fs : DirFS) (gapName : String) : VR :=
  if !fs.metadataExists then
    .fail (errorLine gapName "No metadata.yml file found")
  else
    match fs.metadataRead with
    | .error msg => .fail (errorLine gapName ("Failed to read metadata.yml: " ++ msg))
    | .ok content =>
      match env.parseYaml content with
      | .error msg => .fail (errorLine gapName ("Invalid YAML in metadata.yml: " ++ msg))
      | .ok metadata =>
        if jsTypeof metadata ≠ "object" then
          .fail (errorLine gapName "metadata.yml must contain a valid YAML object")
        else
          match env.schemaErrors metadata with
          | some errs =>
            .fail (errorLine gapName
              ("metadata.yml validation failed:\n\n" ++ formatSchemaErrors errs))
          | none => Old.validateSemantic env gapName metadata

/-- `main()` of the older script: exactly one positional required; the
existence / is-directory guards and the three validation stages are inline
in `main`, and no success line is printed. -/
def runMain (env : Env) (w : World) (positionals : List String) : ProcResult :=
  match positionals with
  | [dirPath] =>
    if !(w.dirFS dirPath).pathExists then
      .failure [] ("Directory does not exist: " ++ dirPath)
    else if !(w.dirFS dirPath).isDir then
      .failure [] ("Not a directory: " ++ dirPath)
    else
      match Old.validateDirectoryNaming dirPath with
      | .error line => .failure [] line
      | .ok gapName =>
        if !(w.dirFS dirPath).readmeExists then
          .failure [] (errorLine gapName "No README.md file found")
        else
          match Old.validateMetadata env (w.dirFS dirPath) gapName with
          | .fail line => .failure [] line
          | .crash => .crash []
          | .ok => .success []
  | _ => .failure [] "Usage: ./scripts/validate-structure.js <gap-directory>"

end Old

theorem firstInvalidAuthor_old_eq (f : String → Bool) (l : List String) :
    Old.firstInvalidAuthor f l = firstInvalidAuthor f l := by
  induction l with
  | nil => rfl
  | cons a r ih =>
    cases hf : f a <;> simp [Old.firstInvalidAuthor, firstInvalidAuthor, hf, ih]

theorem validateSemantic_old_eq (env : Env) (g : String) (md : Yaml) :
    Old.validateSemantic env g md = validateSemantic env g md := by
  unfold Old.validateSemantic validateSemantic
  simp only [firstInvalidAuthor_old_eq]

theorem validateMetadata_old_eq (env : Env) (fs : DirFS) (g : String) :
    Old.validateMetadata env fs g = validateMetadata env fs g := by
  unfold Old.validateMetadata validateMetadata
  simp only [validateSemantic_old_eq]

/-- Claim C10: the per-directory validation logic of the two script
versions is extensionally equal — the naming check and the whole
metadata validation agree on every input (same checks, same order,
identical error messages) — and the versions differ only in their entry
points: the older `main` runs the identical per-directory stages with no
success line, and it has no discovery mode (zero positionals are a usage
error there). -/
theorem old_new_equivalence (env : Env) (fs : DirFS) (g p : String) (w : World) :
    Old.validateDirectoryNaming p = validateDirectoryNaming p ∧
    Old.validateMetadata env fs g = validateMetadata env fs g ∧
    (Old.runMain env w [p] =
      match validateGapDirectory env p (w.dirFS p) with
      | .ok _ => ProcResult.success []
      | .fail e => ProcResult.failure [] e
      | .crash => ProcResult.crash []) ∧
    Old.runMain env w [] = .failure [] "Usage: ./scripts/validate-structure.js <gap-directory>" := by
  refine ⟨rfl, validateMetadata_old_eq env fs g, ?_, rfl⟩
  unfold Old.runMain validateGapDirectory
  cases hex : (w.dirFS p).pathExists with
  | false => simp [hex]
  | true =>
    cases hdir : (w.dirFS p).isDir with
    | false => simp [hex, hdir]
    | true =>
      simp only [hex, hdir, Bool.not_true, Bool.false_eq_true, if_false]
      have hnam : Old.validateDirectoryNaming p = validateDirectoryNaming p := rfl
      rw [hnam]
      cases hn : validateDirectoryNaming p with
      | error line => simp
      | ok gapName =>
        cases hrm : (w.dirFS p).readmeExists with
        | false => simp [hrm]
        | true =>
          simp only [hrm, Bool.not_true, Bool.false_eq_true, if_false]
          rw [validateMetadata_old_eq]
          cases hvm : validateMetadata env (w.dirFS p) gapName <;> simp

/-- Fixture: a directory whose metadata file exists and reads fine. -/
def fsGood : DirFS :=
  { pathExists := true, isDir := true, readmeExists := true,
    metadataExists := true, metadataRead := .ok "yaml-text" }

/-- Fixture: an environment where the YAML parser yields a top-level
sequence and the schema validator rejects it with one error. -/
def envSeqTop : Env :=
  { parseYaml := fun _ => .ok (.seq [.num 1, .num 2])
    schemaErrors := fun _ => some [{ instancePath := "", message := "must be object" }]
    isEmail := fun _ => true
    isURL := fun _ => true }

/-- Claim C3, counterexample: a metadata file parsing to a top-level YAML
sequence is NOT rejected by the step-5 type check (JS `typeof` of an array
is `"object"`); schema validation is attempted on it and its error is the
one reported. -/
theorem typecheck_seq_counterexample :
    validateMetadata envSeqTop fsGood "GAP-0001" =
      .fail (errorLine "GAP-0001" ("metadata.yml validation failed:\n\n" ++ "must be object")) ∧
    validateMetadata envSeqTop fsGood "GAP-0001" ≠
      .fail (errorLine "GAP-0001" "metadata.yml must contain a valid YAML object") := by
  constructor
  · decide
  · decide

/-- Claim C3 (amended): for every metadata.yml whose content parses as
YAML, the step-5 type check fails with the "metadata.yml must contain a
valid YAML object" error, before schema validation is attempted, exactly
when the parsed top-level value is a scalar (string, number or boolean);
a sequence or null — like a mapping — passes the `typeof` check and goes
on to schema validation. -/
theorem typecheck_scalars_only (env : Env) (fs : DirFS) (gap content : String) (v : Yaml)
    (hme : fs.metadataExists = true) (hread : fs.metadataRead = .ok content)
    (hparse : env.parseYaml content = .ok v) :
    ((∃ s, v = .str s) ∨ (∃ n, v = .num n) ∨ (∃ b, v = .bool b) →
      validateMetadata env fs gap =
        .fail (errorLine gap "metadata.yml must contain a valid YAML object")) ∧
    (v = .null ∨ (∃ items, v = .seq items) ∨ (∃ kvs, v = .map kvs) →
      validateMetadata env fs gap =
        match env.schemaErrors v with
        | some errs =>
          .fail (errorLine gap ("metadata.yml validation failed:\n\n" ++ formatSchemaErrors errs))
        | none => validateSemantic env gap v) := by
  have hstep : validateMetadata env fs gap =
      if jsTypeof v ≠ "object" then
        .fail (errorLine gap "metadata.yml must contain a valid YAML object")
      else
        match env.schemaErrors v with
        | some errs =>
          .fail (errorLine gap ("metadata.yml validation failed:\n\n" ++ formatSchemaErrors errs))
        | none => validateSemantic env gap v := by
    unfold validateMetadata
    simp only [hme, hread, hparse, Bool.not_true, Bool.false_eq_true, if_false]
  constructor
  · rintro (⟨s, rfl⟩ | ⟨n, rfl⟩ | ⟨b, rfl⟩)
    · rw [hstep]; exact if_pos (show ("string" : String) ≠ "object" by decide)
    · rw [hstep]; exact if_pos (show ("number" : String) ≠ "object" by decide)
    · rw [hstep]; exact if_pos (show ("boolean" : String) ≠ "object" by decide)
  · rintro (rfl | ⟨items, rfl⟩ | ⟨kvs, rfl⟩) <;>
      rw [hstep] <;>
      exact if_neg (show ¬ ("object" : String) ≠ "object" by decide)

/-- Fixture: an environment where the YAML parser yields a bare scalar. -/
def envStrTop : Env :=
  { parseYaml := fun _ => .ok (.str "just text")
    schemaErrors := fun _ => none
    isEmail := fun _ => true
    isURL := fun _ => true }

theorem typecheck_scalars_only_witness :
    validateMetadata envStrTop fsGood "GAP-0002" =
      .fail (errorLine "GAP-0002" "metadata.yml must contain a valid YAML object") :=
  (typecheck_scalars_only envStrTop fsGood "GAP-0002" "yaml-text" (.str "just text")
    rfl rfl rfl).1 (Or.inl ⟨"just text", rfl⟩)

theorem naming_check_witness :
    validateDirectoryNaming "GAP-0042" = .ok "GAP-0042" ∧
    validateDirectoryNaming "GAP-123" = .error (errorLine "GAP-123"
      "Invalid directory name format. Expected GAP-NNNN (4 digits, zero-padded)") := by
  constructor
  · have h := (naming_check_characterization "GAP-0042").1.mpr
      (Or.inr ⟨'0', '0', '4', '2', by decide, by decide, by decide, by decide, by decide⟩)
    exact h.trans (by rfl)
  · have hn : ¬ (basename "GAP-123" = "GAP-0" ∨
        ∃ a b c d : Char, a.isDigit = true ∧ b.isDigit = true ∧
          c.isDigit = true ∧ d.isDigit = true ∧
          basename "GAP-123" = "GAP-" ++ String.mk [a, b, c, d]) := by
      rintro (h | ⟨a, b, c, d, -, -, -, -, h⟩)
      · exact absurd h (by decide)
      · rw [string_mk_append] at h
        have hl := congrArg (fun t => t.data.length) h
        simp at hl
        exact absurd hl (by decide)
    have h := (naming_check_characterization "GAP-123").2 hn
    exact h.trans (by rfl)

/-- Claim C4: the three semantic checks run only after schema validation
succeeded (a schema failure is reported without consulting them), and are
evaluated in the fixed order authors, then sponsor, then discussion: the
first violated check is the one whose error is produced and everything
after it is not evaluated (each conclusion below is independent of the
later checks' oracles and field values). -/
theorem semantic_checks_order (env : Env) (fs : DirFS) (gap content : String)
    (md : Yaml) (authors : List String) (sponsor discussion : String)
    (hme : fs.metadataExists = true) (hread : fs.metadataRead = .ok content)
    (hparse : env.parseYaml content = .ok md) (htype : jsTypeof md = "object")
    (hauth : asStrList (yamlLookup md "authors") = some authors)
    (hspon : asStr (yamlLookup md "sponsor") = some sponsor)
    (hdisc : asStr (yamlLookup md "discussion") = some discussion) :
    (∀ errs, env.schemaErrors md = some errs →
      validateMetadata env fs gap =
        .fail (errorLine gap ("metadata.yml validation failed:\n\n" ++ formatSchemaErrors errs))) ∧
    (∀ a, env.schemaErrors md = none → firstInvalidAuthor env.isEmail authors = some a →
      validateMetadata env fs gap =
        .fail (errorLine gap
          ("metadata.yml invalid author \"" ++ a ++ "\" - must be \"Name <email>\" or a valid email"))) ∧
    (env.schemaErrors md = none → firstInvalidAuthor env.isEmail authors = none →
      strStartsWith sponsor "@" = false →
      validateMetadata env fs gap =
        .fail (errorLine gap
          ("metadata.yml sponsor must be a GitHub username starting with @ (got \"" ++ sponsor ++ "\")"))) ∧
    (env.schemaErrors md = none → firstInvalidAuthor env.isEmail authors = none →
      strStartsWith sponsor "@" = true → env.isURL discussion = false →
      validateMetadata env fs gap =
        .fail (errorLine gap
          ("metadata.yml discussion must be a valid URL (got \"" ++ discussion ++ "\")"))) ∧
    (env.schemaErrors md = none → firstInvalidAuthor env.isEmail authors = none →
      strStartsWith sponsor "@" = true → env.isURL discussion = true →
      validateMetadata env fs gap = .ok) := by
  have hstep : validateMetadata env fs gap =
      match env.schemaErrors md with
      | some errs =>
        .fail (errorLine gap ("metadata.yml validation failed:\n\n" ++ formatSchemaErrors errs))
      | none => validateSemantic env gap md := by
    unfold validateMetadata
    simp only [hme, hread, hparse, htype, Bool.not_true, Bool.false_eq_true, if_false,
      ne_eq, not_true_eq_false]
  have hsem : validateSemantic env gap md =
      match firstInvalidAuthor env.isEmail authors with
      | some a =>
        .fail (errorLine gap
          ("metadata.yml invalid author \"" ++ a ++ "\" - must be \"Name <email>\" or a valid email"))
      | none =>
        if !strStartsWith sponsor "@" then
          .fail (errorLine gap
            ("metadata.yml sponsor must be a GitHub username starting with @ (got \"" ++ sponsor ++ "\")"))
        else if !env.isURL discussion then
          .fail (errorLine gap
            ("metadata.yml discussion must be a valid URL (got \"" ++ discussion ++ "\")"))
        else .ok := by
    unfold validateSemantic
    simp only [hauth, hspon, hdisc]
  refine ⟨?_, ?_, ?_, ?_, ?_⟩
  · intro errs h0
    simp only [hstep, h0]
  · intro a h0 h1
    simp only [hstep, h0, hsem, h1]
  · intro h0 h1 h2
    simp only [hstep, h0, hsem, h1, h2, Bool.not_false, if_true]
  · intro h0 h1 h2 h3
    simp only [hstep, h0, hsem, h1, h2, h3, Bool.not_true, Bool.not_false,
      Bool.false_eq_true, if_false, if_true]
  · intro h0 h1 h2 h3
    simp only [hstep, h0, hsem, h1, h2, h3, Bool.not_true, Bool.false_eq_true, if_false]

/-- Fixture: a schema-conformant metadata record. -/
def mdGood : Yaml :=
  .map [("authors", .seq [.str "jane@example.com"]),
        ("sponsor", .str "@alice"),
        ("discussion", .str "https://example.com/discuss/42")]

/-- Fixture: all external oracles accept. -/
def envPass : Env :=
  { parseYaml := fun _ => .ok mdGood
    schemaErrors := fun _ => none
    isEmail := fun _ => true
    isURL := fun _ => true }

/-- Fixture: the schema validator rejects with one error. -/
def envSchemaFail : Env :=
  { parseYaml := fun _ => .ok mdGood
    schemaErrors := fun _ => some [{ instancePath := "/sponsor", message := "is required" }]
    isEmail := fun _ => true
    isURL := fun _ => true }

theorem semantic_checks_order_witness :
    validateMetadata envPass fsGood "GAP-0001" = .ok ∧
    validateMetadata envSchemaFail fsGood "GAP-0001" =
      .fail (errorLine "GAP-0001"
        ("metadata.yml validation failed:\n\n" ++
          formatSchemaErrors [{ instancePath := "/sponsor", message := "is required" }])) := by
  constructor
  · exact (semantic_checks_order envPass fsGood "GAP-0001" "yaml-text" mdGood
      ["jane@example.com"] "@alice" "https://example.com/discuss/42"
      rfl rfl rfl rfl rfl rfl rfl).2.2.2.2 rfl rfl (by decide) rfl
  · exact (semantic_checks_order envSchemaFail fsGood "GAP-0001" "yaml-text" mdGood
      ["jane@example.com"] "@alice" "https://example.com/discuss/42"
      rfl rfl rfl rfl rfl rfl rfl).1 _ rfl

theorem firstInvalidAuthor_none_iff (f : String → Bool) (l : List String) :
    firstInvalidAuthor f l = none ↔ ∀ a ∈ l, f a = true := by
  induction l with
  | nil => simp [firstInvalidAuthor]
  | cons a r ih => cases hf : f a <;> simp [firstInvalidAuthor, hf, ih]

theorem firstInvalidAuthor_append (f : String → Bool) (pre rest : List String)
    (h : ∀ b ∈ pre, f b = true) :
    firstInvalidAuthor f (pre ++ rest) = firstInvalidAuthor f rest := by
  induction pre with
  | nil => rfl
  | cons b bs ih =>
    have hb : f b = true := h b (by simp)
    simp only [List.cons_append, firstInvalidAuthor, hb, if_true]
    exact ih (fun x hx => h x (by simp [hx]))

/-- Claim C6: the authors loop accepts each entry exactly when the email
oracle (`validator.isEmail` with display names allowed) accepts it — it
reports no error iff every entry is accepted — and when several entries
are invalid it fails fast on the first invalid entry in sequence order,
reporting exactly that entry in the error message. -/
theorem author_check_first_invalid (env : Env) (gap : String) (md : Yaml)
    (authors : List String)
    (hauth : asStrList (yamlLookup md "authors") = some authors) :
    (firstInvalidAuthor env.isEmail authors = none ↔
      ∀ a ∈ authors, env.isEmail a = true) ∧
    (∀ pre a post, authors = pre ++ a :: post →
      (∀ b ∈ pre, env.isEmail b = true) → env.isEmail a = false →
      validateSemantic env gap md =
        .fail (errorLine gap
          ("metadata.yml invalid author \"" ++ a ++ "\" - must be \"Name <email>\" or a valid email"))) := by
  refine ⟨firstInvalidAuthor_none_iff env.isEmail authors, ?_⟩
  rintro pre a post rfl hpre ha
  have hfi : firstInvalidAuthor env.isEmail (pre ++ a :: post) = some a := by
    rw [firstInvalidAuthor_append env.isEmail pre (a :: post) hpre]
    simp [firstInvalidAuthor, ha]
  unfold validateSemantic
  simp only [hauth, hfi]

/-- Fixture: the email oracle accepts a single known-good address. -/
def envPicky : Env :=
  { parseYaml := fun _ => .ok .null
    schemaErrors := fun _ => none
    isEmail := fun s => s == "jane@example.com"
    isURL := fun _ => true }

/-- Fixture: a metadata record with one valid and two invalid authors. -/
def mdBadAuthors : Yaml :=
  .map [("authors", .seq [.str "jane@example.com", .str "Jane Doe", .str "also bad"]),
        ("sponsor", .str "@alice"), ("discussion", .str "https://example.com")]

theorem author_check_first_invalid_witness :
    validateSemantic envPicky "GAP-0007" mdBadAuthors =
      .fail (errorLine "GAP-0007"
        ("metadata.yml invalid author \"" ++ "Jane Doe" ++ "\" - must be \"Name <email>\" or a valid email")) :=
  (author_check_first_invalid envPicky "GAP-0007" mdBadAuthors
    ["jane@example.com", "Jane Doe", "also bad"] rfl).2
    ["jane@example.com"] "Jane Doe" ["also bad"] rfl (by decide) (by decide)

theorem strStartsWith_at_iff (s : String) :
    strStartsWith s "@" = true ↔ ∃ r, s.data = '@' :: r := by
  rw [strStartsWith_iff]
  constructor
  · rintro ⟨r, hr⟩; exact ⟨r, hr⟩
  · rintro ⟨r, hr⟩; exact ⟨r, hr⟩

/-- Claim C7: the sponsor check passes exactly when the sponsor string
starts with the literal character `@`; the remaining characters never
affect the sponsor check's outcome (for any tail `r`, flow proceeds past
the sponsor stage, and with no leading `@` the sponsor error is produced
whatever the rest of the string is). -/
theorem sponsor_check_at_sign (env : Env) (gap s d : String) :
    (¬ (∃ r, s.data = '@' :: r) →
      validateSemantic env gap
          (.map [("authors", .seq []), ("sponsor", .str s), ("discussion", .str d)]) =
        .fail (errorLine gap
          ("metadata.yml sponsor must be a GitHub username starting with @ (got \"" ++ s ++ "\")"))) ∧
    (∀ r, s.data = '@' :: r →
      validateSemantic env gap
          (.map [("authors", .seq []), ("sponsor", .str s), ("discussion", .str d)]) =
        (if env.isURL d then .ok
         else .fail (errorLine gap
          ("metadata.yml discussion must be a valid URL (got \"" ++ d ++ "\")")))) := by
  have h1 : asStrList (yamlLookup
      (Yaml.map [("authors", .seq []), ("sponsor", .str s), ("discussion", .str d)])
      "authors") = some [] := rfl
  have h2 : asStr (yamlLookup
      (Yaml.map [("authors", .seq []), ("sponsor", .str s), ("discussion", .str d)])
      "sponsor") = some s := rfl
  have h3 : asStr (yamlLookup
      (Yaml.map [("authors", .seq []), ("sponsor", .str s), ("discussion", .str d)])
      "discussion") = some d := rfl
  have hsem0 : validateSemantic env gap
      (Yaml.map [("authors", .seq []), ("sponsor", .str s), ("discussion", .str d)]) =
      if !strStartsWith s "@" then
        .fail (errorLine gap
          ("metadata.yml sponsor must be a GitHub username starting with @ (got \"" ++ s ++ "\")"))
      else if !env.isURL d then
        .fail (errorLine gap
          ("metadata.yml discussion must be a valid URL (got \"" ++ d ++ "\")"))
      else .ok := by
    unfold validateSemantic
    simp only [h1, h2, h3, firstInvalidAuthor]
  refine ⟨fun hns => ?_, fun r hr => ?_⟩
  · have hsw : strStartsWith s "@" = false := by
      cases hsw : strStartsWith s "@" with
      | false => rfl
      | true => exact absurd ((strStartsWith_at_iff s).mp hsw) hns
    rw [hsem0]
    simp [hsw]
  · have hsw : strStartsWith s "@" = true := (strStartsWith_at_iff s).mpr ⟨r, hr⟩
    rw [hsem0]
    cases hu : env.isURL d <;> simp [hsw, hu]

theorem sponsor_check_at_sign_witness :
    validateSemantic envPass "GAP-0005"
        (.map [("authors", .seq []), ("sponsor", .str "@alice"),
               ("discussion", .str "https://x.test")]) = .ok ∧
    validateSemantic envPass "GAP-0005"
        (.map [("authors", .seq []), ("sponsor", .str "alice"),
               ("discussion", .str "https://x.test")]) =
      .fail (errorLine "GAP-0005"
        ("metadata.yml sponsor must be a GitHub username starting with @ (got \"" ++ "alice" ++ "\")")) := by
  constructor
  · have h := (sponsor_check_at_sign envPass "GAP-0005" "@alice" "https://x.test").2
      "alice".data (by decide)
    exact h.trans (by rfl)
  · refine (sponsor_check_at_sign envPass "GAP-0005" "alice" "https://x.test").1 ?_
    rintro ⟨r, hr⟩
    have hh : ("alice" : String).data.head? = some '@' := by rw [hr]; rfl
    exact absurd hh (by decide)

theorem validateDirectoryNaming_ok_shape (p g : String)
    (h : validateDirectoryNaming p = .ok g) : g = basename p := by
  simp only [validateDirectoryNaming] at h
  split at h
  · exact (Except.ok.inj h).symm
  · split at h
    · exact absurd h (by simp)
    · exact (Except.ok.inj h).symm

theorem validateDirectoryNaming_error_shape (p l : String)
    (h : validateDirectoryNaming p = .error l) :
    ∃ m, l = errorLine (basename p) m := by
  simp only [validateDirectoryNaming] at h
  split at h
  · exact absurd h (by simp)
  · split at h
    · exact ⟨_, (Except.error.inj h).symm⟩
    · exact absurd h (by simp)

theorem validateSemantic_fail_shape (env : Env) (g : String) (md : Yaml) (l : String)
    (h : validateSemantic env g md = .fail l) : ∃ m, l = errorLine g m := by
  unfold validateSemantic at h
  cases ha : asStrList (yamlLookup md "authors") with
  | none => simp only [ha] at h; exact absurd h (by simp)
  | some authors =>
    simp only [ha] at h
    cases hfi : firstInvalidAuthor env.isEmail authors with
    | some a => simp [hfi] at h; exact ⟨_, h.symm⟩
    | none =>
      simp only [hfi] at h
      cases hs : asStr (yamlLookup md "sponsor") with
      | none => simp only [hs] at h; exact absurd h (by simp)
      | some sponsor =>
        simp only [hs] at h
        cases hsw : strStartsWith sponsor "@" with
        | false =>
          simp [hsw] at h
          exact ⟨_, h.symm⟩
        | true =>
          simp only [hsw, Bool.not_true, Bool.false_eq_true, if_false] at h
          cases hd : asStr (yamlLookup md "discussion") with
          | none => simp only [hd] at h; exact absurd h (by simp)
          | some disc =>
            simp only [hd] at h
            cases hu : env.isURL disc with
            | false =>
              simp [hu] at h
              exact ⟨_, h.symm⟩
            | true =>
              simp only [hu, Bool.not_true, Bool.false_eq_true, if_false] at h
              exact absurd h (by simp)

theorem validateMetadata_fail_shape (env : Env) (fs : DirFS) (g l : String)
    (h : validateMetadata env fs g = .fail l) : ∃ m, l = errorLine g m := by
  unfold validateMetadata at h
  cases hme : fs.metadataExists with
  | false => simp [hme] at h; exact ⟨_, h.symm⟩
  | true =>
    simp only [hme, Bool.not_true, Bool.false_eq_true, if_false] at h
    cases hr : fs.metadataRead with
    | error msg => simp [hr] at h; exact ⟨_, h.symm⟩
    | ok content =>
      simp only [hr] at h
      cases hp : env.parseYaml content with
      | error msg => simp [hp] at h; exact ⟨_, h.symm⟩
      | ok md =>
        simp only [hp] at h
        by_cases ht : jsTypeof md = "object"
        · simp only [ht, ne_eq, not_true_eq_false, if_false] at h
          cases hse : env.schemaErrors md with
          | some errs => simp [hse] at h; exact ⟨_, h.symm⟩
          | none =>
            simp only [hse] at h
            exact validateSemantic_fail_shape env g md l h
        · rw [if_pos ht] at h
          simp at h
          exact ⟨_, h.symm⟩

/-- Claim C5: every validation failure inside directory validation
(naming, missing files, parse, type check, schema, semantic) produces a
single stderr message of the form `gap-name ++ ": " ++ description`
(the gap name being the directory's base name), and the process
terminates with non-zero status immediately, with no further output and
no continuation. -/
theorem failure_message_shape (env : Env) (dirPath : String) (fs : DirFS) (w : World)
    (hex : fs.pathExists = true) (hdir : fs.isDir = true) (e : String)
    (hfail : validateGapDirectory env dirPath fs = .fail e) :
    (∃ msg, e = errorLine (basename dirPath) msg) ∧
    (w.dirFS dirPath = fs → runMain env w [dirPath] = .failure [] e) := by
  constructor
  · unfold validateGapDirectory at hfail
    simp only [hex, hdir, Bool.not_true, Bool.false_eq_true, if_false] at hfail
    cases hn : validateDirectoryNaming dirPath with
    | error line =>
      simp only [hn] at hfail
      injection hfail with he
      subst he
      exact validateDirectoryNaming_error_shape dirPath line hn
    | ok gapName =>
      have hg : gapName = basename dirPath :=
        validateDirectoryNaming_ok_shape dirPath gapName hn
      simp only [hn] at hfail
      cases hrm : fs.readmeExists with
      | false =>
        simp [hrm] at hfail
        subst hg
        exact ⟨_, hfail.symm⟩
      | true =>
        simp only [hrm, Bool.not_true, Bool.false_eq_true, if_false] at hfail
        cases hvm : validateMetadata env fs gapName with
        | ok => simp [hvm] at hfail
        | crash => simp [hvm] at hfail
        | fail line =>
          simp only [hvm] at hfail
          injection hfail with he
          subst he
          subst hg
          exact validateMetadata_fail_shape env fs (basename dirPath) line hvm
  · intro hw
    simp only [runMain, hw, hfail]

/-- Fixture: a directory whose metadata.yml is missing. -/
def fsNoMeta : DirFS :=
  { pathExists := true, isDir := true, readmeExists := true,
    metadataExists := false, metadataRead := .error "ENOENT" }

/-- Fixture: a world whose every path is `fsNoMeta`. -/
def wNoMeta : World :=
  { rootDir := "/repo", rootEntries := [], dirFS := fun _ => fsNoMeta }

theorem failure_message_shape_witness :
    (∃ msg, errorLine "GAP-0042" "No metadata.yml file found" =
      errorLine (basename "/repo/GAP-0042") msg) ∧
    runMain envPass wNoMeta ["/repo/GAP-0042"] =
      .failure [] (errorLine "GAP-0042" "No metadata.yml file found") := by
  have h := failure_message_shape envPass "/repo/GAP-0042" fsNoMeta wNoMeta
    rfl rfl (errorLine "GAP-0042" "No metadata.yml file found") (by decide)
  exact ⟨h.1, h.2 rfl⟩

/-- Claim C8: with one positional argument naming a missing path or a
non-directory, the process fails before any structural check (for every
environment and every README/metadata state, the error is the existence
or is-directory message alone); with two or more positionals it fails
with the usage message and performs no validation at all. -/
theorem cli_argument_contract (env : Env) (w : World) (p q : String)
    (rest : List String) :
    ((w.dirFS p).pathExists = false →
      runMain env w [p] = .failure [] ("Directory does not exist: " ++ p)) ∧
    ((w.dirFS p).pathExists = true → (w.dirFS p).isDir = false →
      runMain env w [p] = .failure [] ("Not a directory: " ++ p)) ∧
    runMain env w (p :: q :: rest) =
      .failure [] "Usage: ./scripts/validate-structure.js [gap-directory]" := by
  refine ⟨fun hex => ?_, fun hex hdir => ?_, rfl⟩
  · simp only [runMain, validateGapDirectory, hex, Bool.not_false, if_true]
  · simp only [runMain, validateGapDirectory, hex, hdir, Bool.not_true, Bool.not_false,
      Bool.false_eq_true, if_false, if_true]

/-- Fixture: a world where no path exists. -/
def wMissing : World :=
  { rootDir := "/repo", rootEntries := [],
    dirFS := fun _ =>
      { pathExists := false, isDir := false, readmeExists := false,
        metadataExists := false, metadataRead := .error "ENOENT" } }

/-- Fixture: a world where every path is a plain file. -/
def wFile : World :=
  { rootDir := "/repo", rootEntries := [],
    dirFS := fun _ =>
      { pathExists := true, isDir := false, readmeExists := false,
        metadataExists := false, metadataRead := .error "EISDIR" } }

theorem cli_argument_contract_witness :
    runMain envPass wMissing ["nope"] =
      .failure [] ("Directory does not exist: " ++ "nope") ∧
    runMain envPass wFile ["afile"] = .failure [] ("Not a directory: " ++ "afile") ∧
    runMain envPass wMissing ["a", "b"] =
      .failure [] "Usage: ./scripts/validate-structure.js [gap-directory]" :=
  ⟨(cli_argument_contract envPass wMissing "nope" "x" []).1 rfl,
   (cli_argument_contract envPass wFile "afile" "x" []).2.1 rfl rfl,
   (cli_argument_contract envPass wMissing "a" "b" []).2.2⟩

/-- Claim C9: discovery selects exactly the root entries that are
directories whose name begins with the literal `GAP-` (in listing order,
as root-joined paths), and when that selection is empty the process
fails with "No GAP directories found" without validating anything (for
every environment and directory state). -/
theorem discovery_selection (w : World) (env : Env) :
    (∀ p, p ∈ discoverGapDirectories w ↔
      ∃ e ∈ w.rootEntries, e.isDir = true ∧
        (∃ r, e.name.data = 'G' :: 'A' :: 'P' :: '-' :: r) ∧
        p = joinPath w.rootDir e.name) ∧
    (discoverGapDirectories w = [] →
      runMain env w [] = .failure [] "No GAP directories found") := by
  constructor
  · intro p
    unfold discoverGapDirectories
    simp only [List.mem_map, List.mem_filter, Bool.and_eq_true]
    constructor
    · rintro ⟨e, ⟨he, hd, hsw⟩, rfl⟩
      obtain ⟨r, hr⟩ := (strStartsWith_iff e.name "GAP-").mp hsw
      exact ⟨e, he, hd, ⟨r, hr⟩, rfl⟩
    · rintro ⟨e, he, hd, ⟨r, hr⟩, rfl⟩
      exact ⟨e, ⟨he, hd, (strStartsWith_iff e.name "GAP-").mpr ⟨r, hr⟩⟩, rfl⟩
  · intro h
    simp [runMain, h]

/-- Fixture: a root with no GAP directory (a non-GAP directory and a
GAP-named plain file). -/
def wEmpty : World :=
  { rootDir := "/repo",
    rootEntries := [{ name := "docs", isDir := true },
                    { name := "GAP-0001", isDir := false }],
    dirFS := fun _ => fsGood }

theorem discovery_selection_witness :
    runMain envPass wEmpty [] = .failure [] "No GAP directories found" :=
  (discovery_selection wEmpty envPass).2 (by decide)

theorem validateAll_fail_head (env : Env) (w : World) (acc : List String)
    (d : String) (rest : List String) (e : String)
    (hd : validateGapDirectory env d (w.dirFS d) = .fail e) :
    validateAll env w acc (d :: rest) = .failure acc e := by
  simp only [validateAll, hd]

theorem validateAll_ok_pre (env : Env) (w : World) :
    ∀ (pre ds acc : List String),
      (∀ p ∈ pre, ∃ l, validateGapDirectory env p (w.dirFS p) = .ok l) →
      ∃ acc2, validateAll env w acc (pre ++ ds) = validateAll env w acc2 ds := by
  intro pre
  induction pre with
  | nil => intro ds acc _; exact ⟨acc, rfl⟩
  | cons p ps ih =>
    intro ds acc hpre
    obtain ⟨l, hl⟩ := hpre p (by simp)
    obtain ⟨acc2, h2⟩ := ih ds (acc ++ [l]) (fun x hx => hpre x (by simp [hx]))
    refine ⟨acc2, ?_⟩
    rw [List.cons_append]
    simp only [validateAll, hl]
    exact h2

/-- Claim C1: in discovery mode, whenever the discovered sequence splits
as `pre ++ d :: post` with every directory of `pre` validating
successfully and `d` failing with stderr message `e`, the whole process
terminates with non-zero status carrying `e` — for every `post`
whatsoever, so no directory after the first failing one is ever
validated (its state cannot influence the result). -/
theorem discovery_fail_fast (env : Env) (w : World) (pre post : List String)
    (d e : String)
    (hdisc : discoverGapDirectories w = pre ++ d :: post)
    (hpre : ∀ p ∈ pre, ∃ l, validateGapDirectory env p (w.dirFS p) = .ok l)
    (hd : validateGapDirectory env d (w.dirFS d) = .fail e) :
    ∃ outs, runMain env w [] = .failure outs e := by
  obtain ⟨acc2, h2⟩ := validateAll_ok_pre env w pre (d :: post)
    [foundLine (discoverGapDirectories w).length] hpre
  refine ⟨acc2, ?_⟩
  simp only [runMain]
  rw [hdisc] at h2 ⊢
  rw [if_neg (by simp)]
  rw [h2, validateAll_fail_head env w acc2 d post e hd]

/-- Fixture: a valid directory except that README.md is missing. -/
def fsNoReadme : DirFS :=
  { pathExists := true, isDir := true, readmeExists := false,
    metadataExists := true, metadataRead := .ok "yaml-text" }

/-- Fixture: a root with two GAP directories, the first of which is
invalid (no README) while the second is fine. -/
def wTwoDirs : World :=
  { rootDir := "/repo",
    rootEntries := [{ name := "GAP-0001", isDir := true },
                    { name := "GAP-0002", isDir := true }],
    dirFS := fun p => if p = "/repo/GAP-0001" then fsNoReadme else fsGood }

theorem discovery_fail_fast_witness :
    ∃ outs, runMain envPass wTwoDirs [] =
      .failure outs (errorLine "GAP-0001" "No README.md file found") :=
  discovery_fail_fast envPass wTwoDirs [] ["/repo/GAP-0002"] "/repo/GAP-0001"
    (errorLine "GAP-0001" "No README.md file found")
    (by decide) (by simp) (by decide)
